import Mathlib

/-!
Verification of the Lamina.js embedding bridge (`src/bindings/wasm_bindings.cpp`).

The bridge wraps an external interpreter (lexer, parser, interpreter, value
type from `../Lamina/interpreter/...`, not part of this repository).  We embed
the bridge's control flow exactly, parameterised over an abstract engine that
stands for the external collaborators, and instantiate the engine with a small
reference model written from the specification's description of those
collaborators.  Each fallible collaborator operation is modelled atomically:
it either returns a value or raises a failure leaving the state as it was
(partial mutation before a throw is not observable through any claim here).
-/

/-- Model of a native C++ failure signal as observed by the bridge's catch
clauses: a `RuntimeError` (which derives `std::exception`), a
`StdLibException` (which derives `std::exception`), any other
`std::exception`-derived failure, or a non-standard signal that only a
`catch (...)` clause can intercept and that carries no message. -/
inductive CppExc where
  | runtimeError (msg : String)
  | stdLibException (msg : String)
  | stdException (msg : String)
  | nonStd
deriving DecidableEq, Repr

/-- Whether a failure signal derives from `std::exception` (and hence is
intercepted by a `catch (const std::exception&)` clause). -/
def CppExc.isStdDerived : CppExc → Bool
  | .nonStd => false
  | _ => true

/-- Abstract interface of the external collaborators the bridge drives:
`Lexer::tokenize`, `Parser::parse` (which may return a null statement),
`Interpreter` construction, statement execution, variable get/set, the
`Value` constructors for numbers and strings, `Value::to_string`, and the
registration of the `print` builtin into the interpreter's builtin-function
table.  Each fallible operation returns `Except CppExc _`, standing for a
C++ function that either returns or throws. -/
structure Engine (Tok Stmt Val IState : Type) where
  tokenize : String → Except CppExc (List Tok)
  parse : List Tok → Except CppExc (Option Stmt)
  freshState : IState
  registerPrint : IState → IState
  execStmt : IState → Option Stmt → Except CppExc IState
  getVar : IState → String → Except CppExc Val
  setVar : IState → String → Val → Except CppExc IState
  valOfNum : ℚ → Val
  valOfStr : String → Val
  render : Val → String

section Bridge

variable {Tok Stmt Val IState : Type}

/-- `LaminaInterpreter::LaminaInterpreter()`: constructs a fresh interpreter
and manually registers the `print` builtin into its builtin-function table. -/
def LaminaInterpreter.new (eng : Engine Tok Stmt Val IState) : IState :=
  eng.registerPrint eng.freshState

/-- `LaminaInterpreter::reset()`: replaces the interpreter with a freshly
constructed one (note: the source does not re-register the `print` builtin
here). -/
def LaminaInterpreter.reset (eng : Engine Tok Stmt Val IState) (_st : IState) : IState :=
  eng.freshState

/-- `LaminaInterpreter::execute`: tokenize, parse, execute, return `""` on
success; catch clauses for `RuntimeError`, `StdLibException`,
`std::exception` and `...` translate any failure into a tagged string. -/
def LaminaInterpreter.execute (eng : Engine Tok Stmt Val IState) (st : IState)
    (code : String) : Except CppExc (IState × String) :=
  match (do
      let toks ← eng.tokenize code
      let ostmt ← eng.parse toks
      eng.execStmt st ostmt : Except CppExc IState) with
  | .ok st' => .ok (st', "")
  | .error (.runtimeError m) => .ok (st, "RuntimeError: " ++ m)
  | .error (.stdLibException m) => .ok (st, "StdLibException: " ++ m)
  | .error (.stdException m) => .ok (st, "std::exception: " ++ m)
  | .error .nonStd => .ok (st, "Unknown C++ exception occurred during execution")

/-- The synthetic statement `eval` builds around the expression. -/
def wrapEval (expression : String) : String :=
  "var __lamina_result__ = " ++ expression ++ ";"

/-- `LaminaInterpreter::eval`: wraps the expression as
`var __lamina_result__ = <expr>;`, runs the pipeline, and reads the reserved
variable back.  The inner `try`/`catch (...)` around `get_variable` maps any
lookup failure to a fixed error string; the outer `try` only has catch
clauses for `RuntimeError` and `std::exception`, so a non-standard failure
raised by tokenize/parse/execute propagates out (modelled as `.error`). -/
def LaminaInterpreter.eval (eng : Engine Tok Stmt Val IState) (st : IState)
    (expression : String) : Except CppExc (IState × String) :=
  match (do
      let toks ← eng.tokenize (wrapEval expression)
      eng.parse toks : Except CppExc (Option Stmt)) with
  | .error (.runtimeError m) => .ok (st, "RuntimeError: " ++ m)
  | .error (.stdLibException m) => .ok (st, "Error: " ++ m)
  | .error (.stdException m) => .ok (st, "Error: " ++ m)
  | .error .nonStd => .error .nonStd
  | .ok none => .ok (st, "null")
  | .ok (some stmt) =>
    match eng.execStmt st (some stmt) with
    | .error (.runtimeError m) => .ok (st, "RuntimeError: " ++ m)
    | .error (.stdLibException m) => .ok (st, "Error: " ++ m)
    | .error (.stdException m) => .ok (st, "Error: " ++ m)
    | .error .nonStd => .error .nonStd
    | .ok st' =>
      match eng.getVar st' "__lamina_result__" with
      | .ok v => .ok (st', eng.render v)
      | .error _ => .ok (st', "Error: Could not retrieve result")

/-- `LaminaInterpreter::setVariable`: binds a numeric value, with a
`catch (const std::exception&)` clause that swallows the failure silently;
a non-standard failure would not be caught. -/
def LaminaInterpreter.setVariable (eng : Engine Tok Stmt Val IState) (st : IState)
    (name : String) (value : ℚ) : Except CppExc IState :=
  match eng.setVar st name (eng.valOfNum value) with
  | .ok st' => .ok st'
  | .error e => if e.isStdDerived then .ok st else .error e

/-- `LaminaInterpreter::setStringVariable`: same as `setVariable` for a
string-typed value. -/
def LaminaInterpreter.setStringVariable (eng : Engine Tok Stmt Val IState) (st : IState)
    (name : String) (value : String) : Except CppExc IState :=
  match eng.setVar st name (eng.valOfStr value) with
  | .ok st' => .ok st'
  | .error e => if e.isStdDerived then .ok st else .error e

/-- `LaminaInterpreter::getVariable`: looks the name up and renders the
value; a `catch (const std::exception&)` clause maps a lookup/render failure
to `"Error: " ++ message`. -/
def LaminaInterpreter.getVariable (eng : Engine Tok Stmt Val IState) (st : IState)
    (name : String) : Except CppExc String :=
  match eng.getVar st name with
  | .ok v => .ok (eng.render v)
  | .error (.runtimeError m) => .ok ("Error: " ++ m)
  | .error (.stdLibException m) => .ok ("Error: " ++ m)
  | .error (.stdException m) => .ok ("Error: " ++ m)
  | .error .nonStd => .error .nonStd

/-- `LaminaInterpreter::getVersion`. -/
def LaminaInterpreter.getVersion : String := "Lamina.js 1.0.0"

/-- Standalone `evaluateExpression`: throwaway bridge, delegate to eval. -/
def evaluateExpression (eng : Engine Tok Stmt Val IState)
    (expression : String) : Except CppExc (IState × String) :=
  LaminaInterpreter.eval eng (LaminaInterpreter.new eng) expression

/-- Standalone `executeCode`: throwaway bridge, delegate to execute. -/
def executeCode (eng : Engine Tok Stmt Val IState)
    (code : String) : Except CppExc (IState × String) :=
  LaminaInterpreter.execute eng (LaminaInterpreter.new eng) code

end Bridge

/-!
Reference model of the external collaborators.  The Lamina lexer, parser,
interpreter and value type are not part of this repository (`src/` holds only
the bridge), so we model them from the specification: a tokenizer from source
text to a token stream that may fail with a lexical error, a parser from the
token stream to a top-level block statement that may fail with a syntax
error, an interpreter holding named variable bindings and a builtin-function
table, and a value type with a canonical string rendering.
-/

/-- Modelled from the spec: tokens of the modelled language (the missing
Lamina lexer's output): the `var` keyword, identifiers, integer literals,
`+`, `=` and `;`. -/
inductive MTok where
  | kwVar
  | ident (s : String)
  | num (n : Nat)
  | plus
  | eq
  | semi
deriving DecidableEq, Repr

/-- Lexer state: between tokens, inside an integer literal, or inside an
identifier (accumulated characters in order). -/
inductive LexMode where
  | start
  | inNum (acc : Nat)
  | inIdent (acc : List Char)
deriving DecidableEq, Repr

/-- Characters that may continue an identifier. -/
def isIdentChar (c : Char) : Bool :=
  c.isAlpha || c.isDigit || c = '_'

/-- Token emitted when an in-progress literal or identifier ends (keywords
are recognised here). -/
def flushMode : LexMode → List MTok
  | .start => []
  | .inNum acc => [.num acc]
  | .inIdent acc => if acc = ['v', 'a', 'r'] then [.kwVar] else [.ident (String.mk acc)]

/-- Whether `c` extends the current in-progress token, and the extended
state if so. -/
def contMode : LexMode → Char → Option LexMode
  | .inNum acc, c => if c.isDigit then some (.inNum (10 * acc + (c.toNat - 48))) else none
  | .inIdent acc, c => if isIdentChar c then some (.inIdent (acc ++ [c])) else none
  | .start, _ => none

/-- Action of a character that starts a fresh token (or is skipped): the
tokens it emits immediately and the lexer state it enters.  An unexpected
character is a lexical error, surfaced as a `std::exception`-derived
failure. -/
def beginTok (c : Char) : Except CppExc (List MTok × LexMode) :=
  if c = ' ' then .ok ([], .start)
  else if c = '+' then .ok ([.plus], .start)
  else if c = '=' then .ok ([.eq], .start)
  else if c = ';' then .ok ([.semi], .start)
  else if c.isDigit then .ok ([], .inNum (c.toNat - 48))
  else if isIdentChar c then .ok ([], .inIdent [c])
  else .error (.stdException ("Unexpected character: " ++ String.mk [c]))

/-- Modelled from the spec: the missing Lamina lexer (`Lexer::tokenize`),
as a character-at-a-time state machine. -/
def lexRun (m : LexMode) : List Char → Except CppExc (List MTok)
  | [] => .ok (flushMode m)
  | c :: cs =>
    match contMode m c with
    | some m' => lexRun m' cs
    | none =>
      match beginTok c with
      | .error e => .error e
      | .ok (ts, m') =>
        match lexRun m' cs with
        | .error e => .error e
        | .ok rest => .ok (flushMode m ++ (ts ++ rest))

/-- Modelled from the spec: expressions of the modelled language: integer
literals, variable references, and sums. -/
inductive MExpr where
  | lit (n : Nat)
  | evar (s : String)
  | add (a b : MExpr)
deriving DecidableEq, Repr

/-- Modelled from the spec: statements of the modelled language: variable
declarations `var x = e;`.  A parsed program is a block, i.e. a list of
statements. -/
inductive MStmt where
  | varDecl (name : String) (e : MExpr)
deriving DecidableEq, Repr

/-- Attach a freshly parsed term to the expression accumulated so far
(left-associative sums). -/
def combineE : Option MExpr → MExpr → MExpr
  | none, t => t
  | some a, t => .add a t

/-- State of the expression grammar `expr := term (+ term)*`,
`term := number | identifier`: either a term is expected (`acc` is the
expression built before the pending `+`), or a complete expression `acc`
has been built and only `+` may extend it. -/
inductive EMode where
  | term (acc : Option MExpr)
  | done (acc : MExpr)
deriving DecidableEq, Repr

/-- Modelled from the spec: the missing Lamina expression grammar as a
token-at-a-time machine; succeeds only if the whole token list is one
expression. -/
def exprRun : EMode → List MTok → Except CppExc MExpr
  | .term acc, .num k :: ts => exprRun (.done (combineE acc (.lit k))) ts
  | .term acc, .ident s :: ts => exprRun (.done (combineE acc (.evar s))) ts
  | .term _, _ => .error (.stdException "Expected expression")
  | .done acc, .plus :: ts => exprRun (.term (some acc)) ts
  | .done acc, [] => .ok acc
  | .done _, _ => .error (.stdException "Unexpected token in expression")

/-- State of the statement grammar `stmt := 'var' ident '=' expr ';'`:
position within the current declaration, with the expression sub-machine
embedded for the right-hand side. -/
inductive PMode where
  | atStmt
  | atName
  | atEq (name : String)
  | inExpr (name : String) (em : EMode)
deriving DecidableEq, Repr

/-- Modelled from the spec: the missing Lamina statement grammar
(`Parser::parse` body): a top-level block is a sequence of
`var name = expr;` declarations. -/
def parseRun : PMode → List MTok → Except CppExc (List MStmt)
  | .atStmt, [] => .ok []
  | .atStmt, .kwVar :: ts => parseRun .atName ts
  | .atStmt, _ :: _ => .error (.stdException "Expected statement")
  | .atName, .ident s :: ts => parseRun (.atEq s) ts
  | .atName, _ => .error (.stdException "Expected identifier")
  | .atEq n, .eq :: ts => parseRun (.inExpr n (.term none)) ts
  | .atEq _, _ => .error (.stdException "Expected = in declaration")
  | .inExpr n (.term acc), .num k :: ts =>
    parseRun (.inExpr n (.done (combineE acc (.lit k)))) ts
  | .inExpr n (.term acc), .ident s :: ts =>
    parseRun (.inExpr n (.done (combineE acc (.evar s)))) ts
  | .inExpr _ (.term _), _ => .error (.stdException "Expected expression")
  | .inExpr n (.done acc), .plus :: ts => parseRun (.inExpr n (.term (some acc))) ts
  | .inExpr n (.done acc), .semi :: ts =>
    match parseRun .atStmt ts with
    | .error e => .error e
    | .ok stmts => .ok (.varDecl n acc :: stmts)
  | .inExpr _ (.done _), _ => .error (.stdException "Expected semicolon")

/-- Modelled from the spec: the missing Lamina value type: integers (as
produced by the modelled language), host-supplied numbers, strings, and
null, with its canonical string rendering `to_string`. -/
inductive MVal where
  | intv (n : ℤ)
  | numv (q : ℚ)
  | strv (s : String)
  | vnull
deriving DecidableEq, Repr

/-- Modelled from the spec: `Value::to_string`, the canonical string
rendering of a value. -/
def MVal.to_string : MVal → String
  | .intv n => toString n
  | .numv q => toString q
  | .strv s => s
  | .vnull => "null"

/-- Modelled from the spec: the missing Lamina interpreter's state: named
variable bindings (most recent binding first) and the builtin-function
table (names of registered builtins). -/
structure MIState where
  vars : List (String × MVal)
  builtins : List String
deriving DecidableEq, Repr

/-- Variable lookup in the modelled interpreter; an unbound name is a
runtime error. -/
def getVarM (st : MIState) (name : String) : Except CppExc MVal :=
  match st.vars.lookup name with
  | some v => .ok v
  | none => .error (.runtimeError ("Undefined variable: " ++ name))

/-- Variable binding in the modelled interpreter (overwrites any existing
binding observably). -/
def setVarM (st : MIState) (name : String) (v : MVal) : MIState :=
  { st with vars := (name, v) :: st.vars }

/-- Modelled from the spec: expression evaluation in the missing Lamina
interpreter.  Addition is defined on integers; other operand combinations
are runtime errors. -/
def evalExpr (st : MIState) : MExpr → Except CppExc MVal
  | .lit n => .ok (.intv n)
  | .evar s => getVarM st s
  | .add a b =>
    match evalExpr st a, evalExpr st b with
    | .ok (.intv x), .ok (.intv y) => .ok (.intv (x + y))
    | .ok _, .ok _ => .error (.runtimeError "Invalid operands to +")
    | .error e, _ => .error e
    | _, .error e => .error e

/-- Modelled from the spec: statement execution in the missing Lamina
interpreter: evaluate the right-hand side, then bind the name. -/
def execBlock (st : MIState) : List MStmt → Except CppExc MIState
  | [] => .ok st
  | .varDecl name e :: rest =>
    match evalExpr st e with
    | .error exc => .error exc
    | .ok v => execBlock (setVarM st name v) rest

/-- Modelled from the spec: the external engine assembled from the modelled
lexer, parser, interpreter and value type.  `parse` returns no statement
(a null AST) exactly when the token stream is empty. -/
def miniEngine : Engine MTok (List MStmt) MVal MIState :=
  { tokenize := fun s => lexRun .start s.data
    parse := fun toks =>
      if toks = [] then .ok none
      else
        match parseRun .atStmt toks with
        | .error e => .error e
        | .ok stmts => .ok (some stmts)
    freshState := { vars := [], builtins := [] }
    registerPrint := fun st => { st with builtins := "print" :: st.builtins }
    execStmt := fun st ostmt =>
      match ostmt with
      | none => .ok st
      | some b => execBlock st b
    getVar := getVarM
    setVar := fun st n v => .ok (setVarM st n v)
    valOfNum := .numv
    valOfStr := .strv
    render := MVal.to_string }

/-!
Helper lemmas about the modelled engine, used to relate `eval`'s synthetic
`var __lamina_result__ = E;` statement to the direct evaluation of `E`.
-/

theorem lexPfx (rest : List Char) (ts : List MTok) (h : lexRun .start rest = .ok ts) :
    lexRun .start ("var __lamina_result__ = ".data ++ rest) =
      .ok ([.kwVar, .ident "__lamina_result__", .eq] ++ ts) := by
  have hd : "var __lamina_result__ = ".data =
      ['v', 'a', 'r', ' ', '_', '_', 'l', 'a', 'm', 'i', 'n', 'a', '_', 'r', 'e',
        's', 'u', 'l', 't', '_', '_', ' ', '=', ' '] := rfl
  rw [hd]
  simp [lexRun, contMode, beginTok, isIdentChar, flushMode, h]

theorem lexSemi : ∀ (l : List Char) (m : LexMode) (ts : List MTok),
    lexRun m l = .ok ts → lexRun m (l ++ [';']) = .ok (ts ++ [.semi])
  | [], m, ts, h => by
    cases m with
    | start => simp [lexRun, flushMode] at h; simp [lexRun, contMode, beginTok, flushMode, ← h]
    | inNum acc => simp [lexRun, flushMode] at h; simp [lexRun, contMode, beginTok, flushMode, ← h]
    | inIdent acc =>
      simp [lexRun, flushMode] at h
      simp [lexRun, contMode, beginTok, flushMode, isIdentChar, ← h]
  | c :: cs, m, ts, h => by
    rw [List.cons_append]
    rw [lexRun] at h ⊢
    cases hc : contMode m c with
    | some m' =>
      simp only [hc] at h ⊢
      exact lexSemi cs m' ts h
    | none =>
      simp only [hc] at h ⊢
      cases hb : beginTok c with
      | error e => simp only [hb] at h; exact absurd h (by simp)
      | ok p =>
        obtain ⟨ts0, m'⟩ := p
        simp only [hb] at h ⊢
        cases hr : lexRun m' cs with
        | error e => simp only [hr] at h; exact absurd h (by simp)
        | ok rest =>
          simp only [hr] at h
          rw [lexSemi cs m' rest hr]
          simp at h ⊢
          simp [← h]

theorem exprLockstep : ∀ (ts : List MTok) (em : EMode) (n : String) (e : MExpr),
    exprRun em ts = .ok e →
    parseRun (.inExpr n em) (ts ++ [.semi]) = .ok [.varDecl n e]
  | [], em, n, e, h => by
    cases em with
    | term acc => simp [exprRun] at h
    | done acc =>
      simp [exprRun] at h
      simp [parseRun, h]
  | t :: ts, em, n, e, h => by
    rw [List.cons_append]
    cases em with
    | term acc =>
      cases t with
      | num k =>
        rw [exprRun] at h
        rw [parseRun]
        exact exprLockstep ts _ n e h
      | ident s =>
        rw [exprRun] at h
        rw [parseRun]
        exact exprLockstep ts _ n e h
      | kwVar => simp [exprRun] at h
      | plus => simp [exprRun] at h
      | eq => simp [exprRun] at h
      | semi => simp [exprRun] at h
    | done acc =>
      cases t with
      | plus =>
        rw [exprRun] at h
        rw [parseRun]
        exact exprLockstep ts _ n e h
      | num k => simp [exprRun] at h
      | ident s => simp [exprRun] at h
      | kwVar => simp [exprRun] at h
      | eq => simp [exprRun] at h
      | semi => simp [exprRun] at h

theorem evalMini_ok (st : MIState) (E : String) (ts : List MTok) (e : MExpr) (v : MVal)
    (h1 : lexRun .start E.data = .ok ts)
    (h2 : exprRun (.term none) ts = .ok e)
    (h3 : evalExpr st e = .ok v) :
    LaminaInterpreter.eval miniEngine st E =
      .ok (setVarM st "__lamina_result__" v, MVal.to_string v) := by
  have hw : (wrapEval E).data = "var __lamina_result__ = ".data ++ (E.data ++ [';']) := by
    simp [wrapEval, String.data_append]
  have htok : lexRun .start (wrapEval E).data =
      .ok ([.kwVar, .ident "__lamina_result__", .eq] ++ (ts ++ [.semi])) := by
    rw [hw]
    exact lexPfx _ _ (lexSemi _ _ _ h1)
  have hparse : parseRun .atStmt
      ([MTok.kwVar, .ident "__lamina_result__", .eq] ++ (ts ++ [.semi])) =
      .ok [.varDecl "__lamina_result__" e] := by
    simp only [List.cons_append, List.nil_append]
    rw [parseRun, parseRun, parseRun]
    exact exprLockstep ts _ _ e h2
  rw [LaminaInterpreter.eval]
  simp only [miniEngine, htok, Except.bind, bind]
  simp only [List.cons_append, List.nil_append] at hparse ⊢
  simp [hparse, execBlock, h3, getVarM, setVarM, List.lookup]

/-- String tag check used to classify the bridge's diagnostic strings
(`"<Kind>: <message>"`). -/
def strTag (tag s : String) : Bool :=
  tag.data.isPrefixOf s.data

/-- Modelled from the spec: an engine whose tokenizer raises a non-standard
failure signal (the spec's `UnknownError` taxon: a native failure that does
not derive `std::exception` and carries no message). -/
def nonStdEngine : Engine Unit Unit Unit Unit :=
  { tokenize := fun _ => .error .nonStd
    parse := fun _ => .ok none
    freshState := ()
    registerPrint := fun st => st
    execStmt := fun st _ => .ok st
    getVar := fun _ _ => .error .nonStd
    setVar := fun st _ _ => .ok st
    valOfNum := fun _ => ()
    valOfStr := fun _ => ()
    render := fun _ => "" }

/-- Modelled from the spec: an engine whose `set_variable` always fails with
a runtime error (the only failure kind the spec attributes to it). -/
def setFailEngine : Engine Unit Unit Unit Unit :=
  { tokenize := fun _ => .ok []
    parse := fun _ => .ok none
    freshState := ()
    registerPrint := fun st => st
    execStmt := fun st _ => .ok st
    getVar := fun _ _ => .error (.runtimeError "no variables")
    setVar := fun _ _ _ => .error (.runtimeError "set_variable failed")
    valOfNum := fun _ => ()
    valOfStr := fun _ => ()
    render := fun _ => "" }

/-- Modelled from the spec: an engine whose parser yields no statement
(a null AST) for every token stream. -/
def nullEngine : Engine Unit Unit Unit Unit :=
  { tokenize := fun _ => .ok []
    parse := fun _ => .ok none
    freshState := ()
    registerPrint := fun st => st
    execStmt := fun st _ => .ok st
    getVar := fun _ _ => .error (.runtimeError "no variables")
    setVar := fun st _ _ => .ok st
    valOfNum := fun _ => ()
    valOfStr := fun _ => ()
    render := fun _ => "" }

/-- Modelled from the spec: an engine whose statement execution succeeds but
produces no binding for the reserved result variable, so that the
post-execution lookup fails (here even with a non-standard signal, which the
inner `catch (...)` still intercepts). -/
def lookupFailEngine : Engine Unit Unit Unit Unit :=
  { tokenize := fun _ => .ok [()]
    parse := fun _ => .ok (some ())
    freshState := ()
    registerPrint := fun st => st
    execStmt := fun st _ => .ok st
    getVar := fun _ _ => .error .nonStd
    setVar := fun st _ _ => .ok st
    valOfNum := fun _ => ()
    valOfStr := fun _ => ()
    render := fun _ => "" }

/-!
Claims.
-/

/-- C1 (amended): `execute` returns normally on every input, translating
every pipeline failure into a tagged diagnostic string; `eval` translates
every `RuntimeError`/`std::exception`-derived failure and every
result-lookup failure, and the only native exception that can escape either
operation is a non-standard failure signal raised during tokenizing,
parsing, or execution inside `eval` (whose `try` block lacks a
`catch (...)` clause). -/
theorem C1_amended_no_escape_except_nonstd {Tok Stmt Val IState : Type}
    (eng : Engine Tok Stmt Val IState) (st : IState) (code expr : String) :
    (∃ p, LaminaInterpreter.execute eng st code = .ok p) ∧
    (∀ e, LaminaInterpreter.eval eng st expr = .error e → e = .nonStd) := by
  constructor
  · rw [LaminaInterpreter.execute]
    rcases hr : (do
        let toks ← eng.tokenize code
        let ostmt ← eng.parse toks
        eng.execStmt st ostmt : Except CppExc IState) with e | st'
    · cases e <;> simp
    · simp
  · intro e he
    rw [LaminaInterpreter.eval] at he
    rcases hr : (do
        let toks ← eng.tokenize (wrapEval expr)
        eng.parse toks : Except CppExc (Option Stmt)) with e' | ostmt
    · rw [hr] at he
      cases e' <;> simp_all
    · rw [hr] at he
      rcases ostmt with _ | stmt
      · simp at he
      · rcases hx : eng.execStmt st (some stmt) with e' | st'
        · simp only [hx] at he
          cases e' <;> simp_all
        · simp only [hx] at he
          rcases hg : eng.getVar st' "__lamina_result__" with e' | v <;>
            simp only [hg] at he <;> simp at he

/-- C1 witness: the amended statement instantiated at an engine whose
tokenizer raises a non-standard failure, discharging the implication's
hypothesis there. -/
theorem C1_amended_no_escape_except_nonstd_witness :
    (∃ p, LaminaInterpreter.execute nonStdEngine () "print(1);" = .ok p) ∧
    CppExc.nonStd = CppExc.nonStd :=
  ⟨(C1_amended_no_escape_except_nonstd nonStdEngine () "print(1);" "1").1,
   (C1_amended_no_escape_except_nonstd nonStdEngine () "print(1);" "1").2 .nonStd rfl⟩

/-- C1 counterexample: with an engine whose tokenizer raises a non-standard
failure signal (the spec's `UnknownError` taxon), the failure is not caught
inside `eval` — a native exception escapes the bridge boundary, so the claim
as stated is false. -/
theorem C1_counterexample :
    LaminaInterpreter.eval nonStdEngine () "1" = .error .nonStd := rfl

/-- C2: for a statement whose tokenization, parsing and execution against a
direct interpreter instance succeed, `execute` leaves the bridge's
interpreter in exactly the state direct execution produces, and returns the
success string, which is the empty string `""`. -/
theorem C2_execute_refines {Tok Stmt Val IState : Type}
    (eng : Engine Tok Stmt Val IState) (st : IState) (code : String)
    (toks : List Tok) (ostmt : Option Stmt) (st' : IState)
    (h1 : eng.tokenize code = .ok toks)
    (h2 : eng.parse toks = .ok ostmt)
    (h3 : eng.execStmt st ostmt = .ok st') :
    LaminaInterpreter.execute eng st code = .ok (st', "") := by
  rw [LaminaInterpreter.execute]
  simp [h1, h2, h3, bind, Except.bind]

/-- C2 witness: `execute("var x = 1 + 2;")` on the modelled engine binds `x`
to `3` exactly as direct execution does and returns `""`. -/
theorem C2_execute_refines_witness :
    miniEngine.tokenize "var x = 1 + 2;" =
      .ok [.kwVar, .ident "x", .eq, .num 1, .plus, .num 2, .semi] ∧
    miniEngine.parse [.kwVar, .ident "x", .eq, .num 1, .plus, .num 2, .semi] =
      .ok (some [.varDecl "x" (.add (.lit 1) (.lit 2))]) ∧
    miniEngine.execStmt { vars := [], builtins := [] }
        (some [.varDecl "x" (.add (.lit 1) (.lit 2))]) =
      .ok { vars := [("x", .intv 3)], builtins := [] } ∧
    LaminaInterpreter.execute miniEngine { vars := [], builtins := [] } "var x = 1 + 2;" =
      .ok ({ vars := [("x", .intv 3)], builtins := [] }, "") :=
  ⟨rfl, rfl, rfl, C2_execute_refines miniEngine _ _ _ _ _ rfl rfl rfl⟩

/-- C3: for an expression `E` that tokenizes and parses as a single
expression and whose direct evaluation against the interpreter yields the
value `v`, `eval E` returns exactly `v`'s `to_string` rendering (leaving
behind the reserved binding the synthetic statement creates). -/
theorem C3_eval_matches_direct (st : MIState) (E : String) (ts : List MTok)
    (e : MExpr) (v : MVal)
    (h1 : miniEngine.tokenize E = .ok ts)
    (h2 : exprRun (.term none) ts = .ok e)
    (h3 : evalExpr st e = .ok v) :
    LaminaInterpreter.eval miniEngine st E =
      .ok (setVarM st "__lamina_result__" v, MVal.to_string v) :=
  evalMini_ok st E ts e v h1 h2 h3

/-- C3 witness: `eval("1+2")` returns `"3"`, the `to_string` rendering of
the value obtained by evaluating `1+2` directly. -/
theorem C3_eval_matches_direct_witness :
    miniEngine.tokenize "1+2" = .ok [.num 1, .plus, .num 2] ∧
    exprRun (.term none) [.num 1, .plus, .num 2] = .ok (.add (.lit 1) (.lit 2)) ∧
    evalExpr { vars := [], builtins := [] } (.add (.lit 1) (.lit 2)) = .ok (.intv 3) ∧
    LaminaInterpreter.eval miniEngine { vars := [], builtins := [] } "1+2" =
      .ok (setVarM { vars := [], builtins := [] } "__lamina_result__" (.intv 3),
        (MVal.intv 3).to_string) :=
  ⟨rfl, rfl, rfl, C3_eval_matches_direct _ _ _ _ _ rfl rfl rfl⟩

/-- C4 counterexample: for the malformed input `"1 +"`, the parse failure
surfaces under the bridge's type-based `"std::exception: "` tag, which is
neither of the spec's syntax-level kinds (`SyntaxError`, `LexicalError`), so
the claim as stated is false. -/
theorem C4_counterexample :
    LaminaInterpreter.execute miniEngine { vars := [], builtins := [] } "1 +" =
      .ok ({ vars := [], builtins := [] }, "std::exception: Expected statement") ∧
    strTag "SyntaxError: " "std::exception: Expected statement" = false ∧
    strTag "LexicalError: " "std::exception: Expected statement" = false :=
  ⟨rfl, by decide, by decide⟩

/-- C4 (amended): `execute("1 +")` returns the parse failure under the
generic `"std::exception: "` type tag (the bridge has no dedicated
syntax-level tag); the result is at least not tagged with the runtime-level
`"RuntimeError: "` kind. -/
theorem C4_amended_type_tag :
    LaminaInterpreter.execute miniEngine { vars := [], builtins := [] } "1 +" =
      .ok ({ vars := [], builtins := [] }, "std::exception: Expected statement") ∧
    strTag "std::exception: " "std::exception: Expected statement" = true ∧
    strTag "RuntimeError: " "std::exception: Expected statement" = false :=
  ⟨rfl, by decide, by decide⟩

/-- C5 (code bug): `reset()` replaces the interpreter with a bare fresh
instance and does not re-register the `print` builtin the constructor
installs, so the post-reset bridge differs from a freshly constructed
bridge: its builtin-function table is empty instead of containing
`"print"`. -/
theorem C5_reset_loses_builtin :
    LaminaInterpreter.reset miniEngine (LaminaInterpreter.new miniEngine) ≠ LaminaInterpreter.new miniEngine ∧
    (LaminaInterpreter.reset miniEngine (LaminaInterpreter.new miniEngine)).builtins = [] ∧
    (LaminaInterpreter.new miniEngine).builtins = ["print"] :=
  ⟨by decide, rfl, rfl⟩

/-- C6 counterexample: after `eval("1+2")` on a fresh bridge,
`getVariable("__lamina_result__")` returns `"3"` — the reserved binding is
observable, not an unbound error — and when the caller has previously bound
`__lamina_result__` to `"mine"`, `eval` overwrites the observable value. -/
theorem C6_counterexample :
    LaminaInterpreter.eval miniEngine (LaminaInterpreter.new miniEngine) "1+2" =
      .ok ({ vars := [("__lamina_result__", .intv 3)], builtins := ["print"] }, "3") ∧
    LaminaInterpreter.getVariable miniEngine { vars := [("__lamina_result__", .intv 3)], builtins := ["print"] } "__lamina_result__" = .ok "3" ∧
    ("3" : String) ≠ "Error: Undefined variable: __lamina_result__" ∧
    LaminaInterpreter.setStringVariable miniEngine (LaminaInterpreter.new miniEngine) "__lamina_result__" "mine" =
      .ok { vars := [("__lamina_result__", .strv "mine")], builtins := ["print"] } ∧
    LaminaInterpreter.eval miniEngine { vars := [("__lamina_result__", .strv "mine")], builtins := ["print"] } "1+2" =
      .ok ({ vars := [("__lamina_result__", .intv 3), ("__lamina_result__", .strv "mine")], builtins := ["print"] }, "3") ∧
    LaminaInterpreter.getVariable miniEngine { vars := [("__lamina_result__", .intv 3), ("__lamina_result__", .strv "mine")], builtins := ["print"] } "__lamina_result__" = .ok "3" ∧
    ("3" : String) ≠ "mine" :=
  ⟨rfl, rfl, by decide, rfl, rfl, rfl, by decide⟩

/-- C6 (amended): the reserved name `__lamina_result__` does collide with
caller-visible names: after a successful `eval(E)`, the reserved variable is
bound to the result value, that binding is observable through
`getVariable`, and it shadows any caller-created binding of the name. -/
theorem C6_amended_reserved_observable (st : MIState) (E : String) (ts : List MTok)
    (e : MExpr) (v : MVal)
    (h1 : miniEngine.tokenize E = .ok ts)
    (h2 : exprRun (.term none) ts = .ok e)
    (h3 : evalExpr st e = .ok v) :
    ∃ st', LaminaInterpreter.eval miniEngine st E = .ok (st', MVal.to_string v) ∧
      LaminaInterpreter.getVariable miniEngine st' "__lamina_result__" = .ok (MVal.to_string v) ∧
      st'.vars.lookup "__lamina_result__" = some v := by
  refine ⟨_, evalMini_ok st E ts e v h1 h2 h3, ?_, ?_⟩
  · simp [LaminaInterpreter.getVariable, miniEngine, getVarM, setVarM, List.lookup]
  · simp [setVarM, List.lookup]

/-- C6 witness: the amended statement at `eval("40+2")` on a fresh-bridge
state. -/
theorem C6_amended_reserved_observable_witness :
    miniEngine.tokenize "40+2" = .ok [.num 40, .plus, .num 2] ∧
    exprRun (.term none) [.num 40, .plus, .num 2] = .ok (.add (.lit 40) (.lit 2)) ∧
    evalExpr { vars := [], builtins := ["print"] } (.add (.lit 40) (.lit 2)) = .ok (.intv 42) ∧
    (∃ st', LaminaInterpreter.eval miniEngine { vars := [], builtins := ["print"] } "40+2" =
        .ok (st', (MVal.intv 42).to_string) ∧
      LaminaInterpreter.getVariable miniEngine st' "__lamina_result__" = .ok ((MVal.intv 42).to_string) ∧
      st'.vars.lookup "__lamina_result__" = some (.intv 42)) :=
  ⟨rfl, rfl, rfl, C6_amended_reserved_observable _ _ _ _ _ rfl rfl rfl⟩

/-- C7: for failures of the kinds the spec attributes to `set_variable`
(`std::exception`-derived runtime errors), `setVariable` and
`setStringVariable` swallow the failure silently: the call returns
normally, and on failure the bridge's interpreter state is unchanged. -/
theorem C7_setters_swallow {Tok Stmt Val IState : Type}
    (eng : Engine Tok Stmt Val IState) (st : IState) (n : String) (q : ℚ) (s : String)
    (hn : ∀ e, eng.setVar st n (eng.valOfNum q) = .error e → e.isStdDerived = true)
    (hs : ∀ e, eng.setVar st n (eng.valOfStr s) = .error e → e.isStdDerived = true) :
    (∃ st', LaminaInterpreter.setVariable eng st n q = .ok st') ∧
    (∀ e, eng.setVar st n (eng.valOfNum q) = .error e →
      LaminaInterpreter.setVariable eng st n q = .ok st) ∧
    (∃ st', LaminaInterpreter.setStringVariable eng st n s = .ok st') ∧
    (∀ e, eng.setVar st n (eng.valOfStr s) = .error e →
      LaminaInterpreter.setStringVariable eng st n s = .ok st) := by
  refine ⟨?_, ?_, ?_, ?_⟩
  · rcases hr : eng.setVar st n (eng.valOfNum q) with e | st'
    · exact ⟨st, by simp [LaminaInterpreter.setVariable, hr, hn e hr]⟩
    · exact ⟨st', by simp [LaminaInterpreter.setVariable, hr]⟩
  · intro e he
    simp [LaminaInterpreter.setVariable, he, hn e he]
  · rcases hr : eng.setVar st n (eng.valOfStr s) with e | st'
    · exact ⟨st, by simp [LaminaInterpreter.setStringVariable, hr, hs e hr]⟩
    · exact ⟨st', by simp [LaminaInterpreter.setStringVariable, hr]⟩
  · intro e he
    simp [LaminaInterpreter.setStringVariable, he, hs e he]

/-- C7 witness: at an engine whose `set_variable` always fails with a
runtime error, both setters return normally and leave the state unchanged. -/
theorem C7_setters_swallow_witness :
    (∃ st', LaminaInterpreter.setVariable setFailEngine () "x" 3.5 = .ok st') ∧
    (∀ e, setFailEngine.setVar () "x" (setFailEngine.valOfNum 3.5) = .error e →
      LaminaInterpreter.setVariable setFailEngine () "x" 3.5 = .ok ()) ∧
    (∃ st', LaminaInterpreter.setStringVariable setFailEngine () "x" "hi" = .ok st') ∧
    (∀ e, setFailEngine.setVar () "x" (setFailEngine.valOfStr "hi") = .error e →
      LaminaInterpreter.setStringVariable setFailEngine () "x" "hi" = .ok ()) :=
  C7_setters_swallow setFailEngine () "x" 3.5 "hi"
    (by intro e he; simp [setFailEngine] at he; simp [← he, CppExc.isStdDerived])
    (by intro e he; simp [setFailEngine] at he; simp [← he, CppExc.isStdDerived])

/-- C8: immediately after `setVariable("x", 3.5)`, `getVariable("x")`
returns the canonical rendering of the numeric value `3.5`; immediately
after `setStringVariable("s", "hi")`, `getVariable("s")` returns `"hi"`. -/
theorem C8_set_get_roundtrip (st : MIState) (st1 st2 : MIState)
    (h1 : LaminaInterpreter.setVariable miniEngine st "x" 3.5 = .ok st1)
    (h2 : LaminaInterpreter.setStringVariable miniEngine st "s" "hi" = .ok st2) :
    LaminaInterpreter.getVariable miniEngine st1 "x" =
      .ok (miniEngine.render (miniEngine.valOfNum 3.5)) ∧
    LaminaInterpreter.getVariable miniEngine st2 "s" = .ok "hi" := by
  have e1 : st1 = setVarM st "x" (.numv 3.5) := by
    simp [LaminaInterpreter.setVariable, miniEngine] at h1
    exact h1.symm
  have e2 : st2 = setVarM st "s" (.strv "hi") := by
    simp [LaminaInterpreter.setStringVariable, miniEngine] at h2
    exact h2.symm
  subst e1 e2
  constructor
  · simp [LaminaInterpreter.getVariable, miniEngine, getVarM, setVarM, List.lookup]
  · simp [LaminaInterpreter.getVariable, miniEngine, getVarM, setVarM, List.lookup, MVal.to_string]

/-- C8 witness: the round trip on a fresh interpreter state. -/
theorem C8_set_get_roundtrip_witness :
    LaminaInterpreter.setVariable miniEngine { vars := [], builtins := [] } "x" 3.5 =
      .ok { vars := [("x", .numv 3.5)], builtins := [] } ∧
    LaminaInterpreter.setStringVariable miniEngine { vars := [], builtins := [] } "s" "hi" =
      .ok { vars := [("s", .strv "hi")], builtins := [] } ∧
    (LaminaInterpreter.getVariable miniEngine { vars := [("x", .numv 3.5)], builtins := [] } "x" =
        .ok (miniEngine.render (miniEngine.valOfNum 3.5)) ∧
      LaminaInterpreter.getVariable miniEngine { vars := [("s", .strv "hi")], builtins := [] } "s" =
        .ok "hi") :=
  ⟨rfl, rfl, C8_set_get_roundtrip { vars := [], builtins := [] } _ _ rfl rfl⟩

/-- C9: a variable bound via `setVariable`/`setStringVariable` before
`reset()` is no longer retrievable afterwards: `getVariable` returns the
unbound-variable error string (for every name, since the replacement
interpreter starts with no bindings at all). -/
theorem C9_reset_unbinds (st st1 st2 : MIState) (n1 n2 : String) (q : ℚ) (s : String)
    (_h1 : LaminaInterpreter.setVariable miniEngine st n1 q = .ok st1)
    (_h2 : LaminaInterpreter.setStringVariable miniEngine st1 n2 s = .ok st2)
    (name : String) :
    LaminaInterpreter.getVariable miniEngine (LaminaInterpreter.reset miniEngine st2) name =
      .ok ("Error: Undefined variable: " ++ name) := by
  simp [LaminaInterpreter.reset, LaminaInterpreter.getVariable, miniEngine, getVarM, List.lookup,
    ← String.append_assoc]

/-- C9 witness: bind `x` and `y`, reset, then look `x` up. -/
theorem C9_reset_unbinds_witness :
    LaminaInterpreter.getVariable miniEngine
      (LaminaInterpreter.reset miniEngine { vars := [("y", .strv "hi"), ("x", .numv 3.5)], builtins := [] }) "x" =
      .ok ("Error: Undefined variable: " ++ "x") :=
  C9_reset_unbinds { vars := [], builtins := [] } _ _ "x" "y" 3.5 "hi" rfl rfl "x"

/-- C10: `eval` returns the literal string `"null"` when parsing yields no
statement, and returns the fixed string `"Error: Could not retrieve result"`
whenever the post-execution lookup of the reserved result variable fails,
for any failure kind (the inner `catch (...)` intercepts even non-standard
signals), including when execution succeeded without creating the binding. -/
theorem C10_eval_null_and_lookup {Tok Stmt Val IState : Type}
    (eng : Engine Tok Stmt Val IState) (st : IState) (expr : String) (toks : List Tok)
    (h : eng.tokenize (wrapEval expr) = .ok toks) :
    (eng.parse toks = .ok none → LaminaInterpreter.eval eng st expr = .ok (st, "null")) ∧
    (∀ stmt st' e, eng.parse toks = .ok (some stmt) →
      eng.execStmt st (some stmt) = .ok st' →
      eng.getVar st' "__lamina_result__" = .error e →
      LaminaInterpreter.eval eng st expr = .ok (st', "Error: Could not retrieve result")) := by
  constructor
  · intro hp
    rw [LaminaInterpreter.eval]
    simp [h, hp, bind, Except.bind]
  · intro stmt st' e hp hx hg
    rw [LaminaInterpreter.eval]
    simp [h, hp, bind, Except.bind, hx, hg]

/-- C10 witness: an engine whose parser yields no statement makes `eval`
return `"null"`; an engine whose execution succeeds without binding the
reserved variable makes `eval` return the fixed lookup-error string. -/
theorem C10_eval_null_and_lookup_witness :
    LaminaInterpreter.eval nullEngine () "" = .ok ((), "null") ∧
    LaminaInterpreter.eval lookupFailEngine () "1" = .ok ((), "Error: Could not retrieve result") :=
  ⟨(C10_eval_null_and_lookup nullEngine () "" [] rfl).1 rfl,
   (C10_eval_null_and_lookup lookupFailEngine () "1" [()] rfl).2 () () .nonStd rfl rfl rfl⟩
